import Mathlib

set_option maxRecDepth 100000

/-!
Verification of the SIM7000 GPS tracker firmware (src/main7.c).

The C program is shallowly embedded: byte buffers are lists of natural
numbers (one per byte, `0` is the NUL terminator), reads past the end of a
list yield `0`, and every loop of the source is translated into a Lean
function that follows the source's control flow and counters verbatim.
-/

/-- A byte read from a buffer: `l.getD k 0`.  C buffers are fixed arrays;
positions beyond the modelled list are taken to hold `0`. -/
def byteAt (l : List Nat) (k : Nat) : Nat := l.getD k 0

/-- `strlen` on a C string stored in a buffer: index of the first NUL byte
(the whole length when the list holds no NUL, matching the zero padding of
`byteAt`). -/
def strlenC (l : List Nat) : Nat := l.findIdx (fun c => c == 0)

/-- The inner `for(k=i, j=0; str[k] && sub[j]; j++, k++) if(str[k]!=sub[j]) break;`
loop of `is_in_rx_buffer` (src/main7.c:231-232): the value of `j` when the
loop stops, i.e. the number of leading positions where both bytes are
non-NUL and equal. -/
def innerJ (s : List Nat) : Nat → List Nat → Nat
  | _, [] => 0
  | k, c :: rest =>
    if byteAt s k ≠ 0 ∧ c ≠ 0 ∧ byteAt s k = c then innerJ s (k + 1) rest + 1
    else 0

/-- The outer scan of `is_in_rx_buffer` (src/main7.c:227-236).  `i` is the
scan position, `j` the match counter carried over from the previous inner
loop (the source never resets it between outer iterations), `rem` the
remaining iterations (`buffersize - i`). -/
def isInRxAux (s t : List Nat) : Nat → Nat → Nat → Nat
  | _, _, 0 => 0
  | i, j, rem + 1 =>
    if byteAt s i = byteAt t j then
      if innerJ s i t = strlenC t then 1
      else isInRxAux s t (i + 1) (innerJ s i t) rem
    else isInRxAux s t (i + 1) j rem

/-- `is_in_rx_buffer(str, sub, buffersize)` (src/main7.c:225-239): naive
substring search of token `t` in buffer `s`, scanning `bufsize` positions. -/
def is_in_rx_buffer (s t : List Nat) (bufsize : Nat) : Nat :=
  isInRxAux s t 0 0 bufsize

/-- `BUFFER_SIZE` (src/main7.c:149): capacity of the `response` and
`smstext` buffers. -/
def BUFFER_SIZE : Nat := 170

/-- Token `ISOK` = "OK" (src/main7.c:66). -/
def ISOKtok : List Nat := [79, 75]

/-- Token `ISATECHO` = "AT" (src/main7.c:65). -/
def ISATECHOtok : List Nat := [65, 84]

/-- Token `ISREG1` = "+CREG: 0,1" (src/main7.c:67). -/
def ISREG1tok : List Nat := [43, 67, 82, 69, 71, 58, 32, 48, 44, 49]

/-- Token `ISREG2` = "+CREG: 0,5" (src/main7.c:68). -/
def ISREG2tok : List Nat := [43, 67, 82, 69, 71, 58, 32, 48, 44, 53]

/-- Token `GPSISFIXED` = "+CGNSINF: 1,1," (src/main7.c:138). -/
def GPSISFIXEDtok : List Nat := [43, 67, 71, 78, 83, 73, 78, 70, 58, 32, 49, 44, 49, 44]

/-- Token `ISSMS` = "CMT:" (src/main7.c:84). -/
def ISSMStok : List Nat := [67, 77, 84, 58]

/-- Token `ISMULTI` = "MULTI" (src/main7.c:87). -/
def ISMULTItok : List Nat := [77, 85, 76, 84, 73]

/-- Token `ISSINGLE` = "SINGLE" (src/main7.c:88). -/
def ISSINGLEtok : List Nat := [83, 73, 78, 71, 76, 69]

/-- Token `ISACTIVATE` = "ACTIVATE" (src/main7.c:89). -/
def ISACTIVATEtok : List Nat := [65, 67, 84, 73, 86, 65, 84, 69]

/-- Token `ISGUARD` = "GUARD" (src/main7.c:90). -/
def ISGUARDtok : List Nat := [71, 85, 65, 82, 68]

/-- Token `ISSTOP` = "STOP" (src/main7.c:91). -/
def ISSTOPtok : List Nat := [83, 84, 79, 80]

/-- `INITLOC` = "0000000000000000000" plus its NUL terminator
(src/main7.c:143): the all-zero sentinel location. -/
def INITLOCl : List Nat :=
  [48, 48, 48, 48, 48, 48, 48, 48, 48, 48, 48, 48, 48, 48, 48, 48, 48, 48, 48, 0]

/-- The token `t` (its bytes before the NUL terminator) occurs contiguously
in buffer `s` starting at `i`, all its bytes being non-NUL bytes of `s`. -/
def occursAt (s t : List Nat) (i : Nat) : Prop :=
  ∀ r, r < strlenC t → byteAt s (i + r) = byteAt t r ∧ byteAt s (i + r) ≠ 0

/-- Boolean contiguous-substring test used to state what the spec means by
"token occurs as a contiguous substring of the buffer". -/
def occursInB (sub str : List Nat) : Bool :=
  (List.range (str.length + 1)).any (fun i => decide ((str.drop i).take sub.length = sub))

theorem innerJ_spec (s : List Nat) :
    ∀ (t : List Nat) (k r : Nat), r < innerJ s k t →
      byteAt s (k + r) = byteAt t r ∧ byteAt s (k + r) ≠ 0 := by
  intro t
  induction t with
  | nil => intro k r h; simp [innerJ] at h
  | cons c rest ih =>
    intro k r h
    rw [innerJ] at h
    by_cases hc : byteAt s k ≠ 0 ∧ c ≠ 0 ∧ byteAt s k = c
    · rw [if_pos hc] at h
      match r with
      | 0 =>
        refine ⟨?_, ?_⟩
        · simpa [byteAt] using hc.2.2
        · simpa using hc.1
      | r + 1 =>
        have hr : r < innerJ s (k + 1) rest := by omega
        have := ih (k + 1) r hr
        constructor
        · have h1 : k + (r + 1) = (k + 1) + r := by omega
          rw [h1]
          simpa [byteAt] using this.1
        · have h1 : k + (r + 1) = (k + 1) + r := by omega
          rw [h1]
          exact this.2
    · rw [if_neg hc] at h; omega

theorem isInRxAux_zero_or_one (s t : List Nat) :
    ∀ (rem i j : Nat), isInRxAux s t i j rem = 0 ∨ isInRxAux s t i j rem = 1 := by
  intro rem
  induction rem with
  | zero => intro i j; left; rfl
  | succ r ih =>
    intro i j
    rw [isInRxAux]
    by_cases h1 : byteAt s i = byteAt t j
    · rw [if_pos h1]
      by_cases h2 : innerJ s i t = strlenC t
      · rw [if_pos h2]; right; rfl
      · rw [if_neg h2]; exact ih (i + 1) (innerJ s i t)
    · rw [if_neg h1]; exact ih (i + 1) j

theorem isInRxAux_one (s t : List Nat) :
    ∀ (rem i j : Nat), isInRxAux s t i j rem = 1 →
      ∃ k, i ≤ k ∧ k < i + rem ∧ innerJ s k t = strlenC t := by
  intro rem
  induction rem with
  | zero => intro i j h; simp [isInRxAux] at h
  | succ r ih =>
    intro i j h
    rw [isInRxAux] at h
    by_cases h1 : byteAt s i = byteAt t j
    · rw [if_pos h1] at h
      by_cases h2 : innerJ s i t = strlenC t
      · exact ⟨i, le_refl i, by omega, h2⟩
      · rw [if_neg h2] at h
        obtain ⟨k, hk1, hk2, hk3⟩ := ih (i + 1) (innerJ s i t) h
        exact ⟨k, by omega, by omega, hk3⟩
    · rw [if_neg h1] at h
      obtain ⟨k, hk1, hk2, hk3⟩ := ih (i + 1) j h
      exact ⟨k, by omega, by omega, hk3⟩

/-- C1 (counterexample): the claim "is_in_rx_buffer returns 1 iff the token
occurs as a contiguous substring, and returns 1 for the empty token on any
buffer" is false on the code.  The buffer "AAB" contains the token "AB" at
offset 1, yet the matcher returns 0 (the match counter `j` is carried over
between scan positions and masks the real occurrence); likewise the empty
token is a substring of the all-letter buffer, yet the matcher returns 0
because that buffer holds no NUL byte. -/
theorem is_in_rx_buffer_not_complete :
    occursInB [65, 66] [65, 65, 66] = true ∧
    is_in_rx_buffer [65, 65, 66] [65, 66] 170 = 0 ∧
    occursInB [] (List.replicate 170 65) = true ∧
    is_in_rx_buffer (List.replicate 170 65) [] 170 = 0 := by decide

/-- C1 (amended): `is_in_rx_buffer` is sound but not complete.  If it
returns 1, the token's bytes (up to its NUL terminator) do occur as a
contiguous substring of the buffer, starting below `bufsize`; consequently
a token longer than the buffer is never reported found.  The converse
direction of the original claim fails (see `is_in_rx_buffer_not_complete`). -/
theorem is_in_rx_buffer_sound (s t : List Nat) (bufsize : Nat)
    (h : is_in_rx_buffer s t bufsize = 1) :
    (∃ i, i < bufsize ∧ occursAt s t i) ∧ strlenC t ≤ s.length := by
  obtain ⟨k, _, hk2, hk3⟩ := isInRxAux_one s t bufsize 0 0 h
  have hocc : occursAt s t k := by
    intro r hr
    exact innerJ_spec s t k r (by omega)
  refine ⟨⟨k, by omega, hocc⟩, ?_⟩
  by_contra hlen
  push_neg at hlen
  have hpos : 0 < strlenC t := by omega
  have := hocc (strlenC t - 1) (by omega)
  have hin : k + (strlenC t - 1) < s.length := by
    by_contra hge
    push_neg at hge
    exact this.2 (List.getD_eq_default s 0 hge)
  omega

/-- Witness for `is_in_rx_buffer_sound`: the token "OK" is found in the
buffer "OK" and the soundness conclusion holds there. -/
theorem is_in_rx_buffer_sound_witness :
    is_in_rx_buffer ISOKtok ISOKtok 170 = 1 ∧
    ((∃ i, i < 170 ∧ occursAt ISOKtok ISOKtok i) ∧ strlenC ISOKtok ≤ ISOKtok.length) :=
  ⟨by decide, is_in_rx_buffer_sound ISOKtok ISOKtok 170 (by decide)⟩

/-- `readline()` (src/main7.c:270-302), modelled as the list of writes
`(index, value)` it performs into the `response` buffer while consuming the
given input bytes.  `i` is the per-call byte counter, `pos` is
`response_pos`.  A non-terminator byte is stored only while `i < 150`; a
CR/LF with at least one stored byte writes the NUL terminator and ends the
line; the loop repeats while no whole line was seen and `i < 150`.  (The C
function blocks on an empty stream; the model simply stops recording.) -/
def readlineWrites : List Nat → Nat → Nat → List (Nat × Nat)
  | [], _, _ => []
  | c :: rest, i, pos =>
    if c = 10 ∨ c = 13 then
      if pos > 0 then [(pos, 0)]
      else if i + 1 < 150 then readlineWrites rest (i + 1) pos else []
    else
      if i < 150 then
        (pos, c) :: (if i + 1 < 150 then readlineWrites rest (i + 1) (pos + 1) else [])
      else
        (if i + 1 < 150 then readlineWrites rest (i + 1) pos else [])

/-- `readsmstxt()` (src/main7.c:308-340): byte-for-byte the same loop as
`readline`, writing into the `smstext` buffer instead. -/
def readsmstxtWrites : List Nat → Nat → Nat → List (Nat × Nat)
  | [], _, _ => []
  | c :: rest, i, pos =>
    if c = 10 ∨ c = 13 then
      if pos > 0 then [(pos, 0)]
      else if i + 1 < 150 then readsmstxtWrites rest (i + 1) pos else []
    else
      if i < 150 then
        (pos, c) :: (if i + 1 < 150 then readsmstxtWrites rest (i + 1) (pos + 1) else [])
      else
        (if i + 1 < 150 then readsmstxtWrites rest (i + 1) pos else [])

theorem readlineWrites_bound :
    ∀ (input : List Nat) (i pos : Nat), pos ≤ i → i < 150 →
      ∀ w ∈ readlineWrites input i pos, w.1 ≤ 150 := by
  intro input
  induction input with
  | nil => intro i pos _ _ w hw; simp [readlineWrites] at hw
  | cons c rest ih =>
    intro i pos hpi hi w hw
    rw [readlineWrites] at hw
    by_cases hterm : c = 10 ∨ c = 13
    · rw [if_pos hterm] at hw
      by_cases hpos : pos > 0
      · rw [if_pos hpos] at hw
        have hw2 := List.mem_singleton.mp hw
        subst hw2
        simp
        omega
      · rw [if_neg hpos] at hw
        by_cases hnext : i + 1 < 150
        · rw [if_pos hnext] at hw
          exact ih (i + 1) pos (by omega) hnext w hw
        · rw [if_neg hnext] at hw; simp at hw
    · rw [if_neg hterm, if_pos hi] at hw
      rcases List.mem_cons.mp hw with hw | hw
      · subst hw; simp; omega
      · by_cases hnext : i + 1 < 150
        · rw [if_pos hnext] at hw
          exact ih (i + 1) (pos + 1) (by omega) hnext w hw
        · rw [if_neg hnext] at hw; simp at hw

theorem readsmstxtWrites_bound :
    ∀ (input : List Nat) (i pos : Nat), pos ≤ i → i < 150 →
      ∀ w ∈ readsmstxtWrites input i pos, w.1 ≤ 150 := by
  intro input
  induction input with
  | nil => intro i pos _ _ w hw; simp [readsmstxtWrites] at hw
  | cons c rest ih =>
    intro i pos hpi hi w hw
    rw [readsmstxtWrites] at hw
    by_cases hterm : c = 10 ∨ c = 13
    · rw [if_pos hterm] at hw
      by_cases hpos : pos > 0
      · rw [if_pos hpos] at hw
        have hw2 := List.mem_singleton.mp hw
        subst hw2
        simp
        omega
      · rw [if_neg hpos] at hw
        by_cases hnext : i + 1 < 150
        · rw [if_pos hnext] at hw
          exact ih (i + 1) pos (by omega) hnext w hw
        · rw [if_neg hnext] at hw; simp at hw
    · rw [if_neg hterm, if_pos hi] at hw
      rcases List.mem_cons.mp hw with hw | hw
      · subst hw; simp; omega
      · by_cases hnext : i + 1 < 150
        · rw [if_pos hnext] at hw
          exact ih (i + 1) (pos + 1) (by omega) hnext w hw
        · rw [if_neg hnext] at hw; simp at hw

/-- C3: for every input byte sequence, neither `readline` nor `readsmstxt`
ever writes at an index at or beyond the 170-byte capacity of its buffer:
every write performed from the initial state (`i = 0`, position `0`) lands
at an index below `BUFFER_SIZE` (in fact at most 150). -/
theorem readline_readsmstxt_no_overflow (input : List Nat) (w : Nat × Nat) :
    (w ∈ readlineWrites input 0 0 → w.1 < BUFFER_SIZE) ∧
    (w ∈ readsmstxtWrites input 0 0 → w.1 < BUFFER_SIZE) := by
  constructor
  · intro hw
    have := readlineWrites_bound input 0 0 (by omega) (by omega) w hw
    simp [BUFFER_SIZE]
    omega
  · intro hw
    have := readsmstxtWrites_bound input 0 0 (by omega) (by omega) w hw
    simp [BUFFER_SIZE]
    omega

/-- Witness for `readline_readsmstxt_no_overflow`: reading the line "A\r"
writes the byte at index 0 (and likewise for the SMS-body reader), and the
theorem applies to give the bound. -/
theorem readline_readsmstxt_no_overflow_witness :
    ((0, 65) ∈ readlineWrites [65, 13] 0 0 ∧ (0 : Nat) < BUFFER_SIZE) ∧
    ((0, 65) ∈ readsmstxtWrites [65, 13] 0 0 ∧ (0 : Nat) < BUFFER_SIZE) :=
  ⟨⟨by decide, (readline_readsmstxt_no_overflow [65, 13] (0, 65)).1 (by decide)⟩,
   ⟨by decide, (readline_readsmstxt_no_overflow [65, 13] (0, 65)).2 (by decide)⟩⟩

/-- One `do { char1 = response[pos]; pos++; i++; } while (char1 != target && i < 150)`
loop of `readsmsphonenumber()` (src/main7.c:361-372), with explicit fuel.
Returns the final `(response_pos, i)`.  The wrapper `scanUntil` passes fuel
`150 - i`, which the loop guard `i + 1 < 150` can never exhaust, so the
fuel-0 fallback is unreachable in real runs and coincides with the
loop-exit result anyway. -/
def scanUntilF (resp : List Nat) (target : Nat) : Nat → Nat → Nat → Nat × Nat
  | pos, i, 0 => (pos + 1, i + 1)
  | pos, i, fuel + 1 =>
    if byteAt resp pos ≠ target ∧ i + 1 < 150 then scanUntilF resp target (pos + 1) (i + 1) fuel
    else (pos + 1, i + 1)

def scanUntil (resp : List Nat) (target pos i : Nat) : Nat × Nat :=
  scanUntilF resp target pos i (150 - i)

/-- The copy loop of `readsmsphonenumber()` (src/main7.c:374-380): copies
bytes from `response` into `phonenumber` (recorded as `(index, value)`
writes) until the closing quote is read or the shared fuse `i` reaches 150.
Note the write index `ppos` (`phonenumber_pos`) is bounded by nothing but
the fuse.  Returns the writes and the final `phonenumber_pos`. -/
def copyQuotedF (resp : List Nat) : Nat → Nat → Nat → Nat → List (Nat × Nat) × Nat
  | pos, ppos, _, 0 => ([(ppos, byteAt resp pos)], ppos + 1)
  | pos, ppos, i, fuel + 1 =>
    if byteAt resp pos ≠ 34 ∧ i + 1 < 150 then
      let r := copyQuotedF resp (pos + 1) (ppos + 1) (i + 1) fuel
      ((ppos, byteAt resp pos) :: r.1, r.2)
    else ([(ppos, byteAt resp pos)], ppos + 1)

def copyQuoted (resp : List Nat) (pos ppos i : Nat) : List (Nat × Nat) × Nat :=
  copyQuotedF resp pos ppos i (150 - i)

/-- `readsmsphonenumber()` (src/main7.c:347-387) as the list of writes it
performs into the 20-byte `phonenumber` buffer, given the content of the
`response` buffer: scan past the first ':', then past the first '"', copy
until the closing '"', then overwrite the last copied byte with NUL. -/
def readsmsphonenumberWrites (resp : List Nat) : List (Nat × Nat) :=
  let s1 := scanUntil resp 58 0 0
  let s2 := scanUntil resp 34 s1.1 s1.2
  let r := copyQuoted resp s2.1 0 s2.2
  r.1 ++ [(r.2 - 1, 0)]

/-- A `+CMT:` notification line carrying a 25-character quoted sender
number (a '+' and 24 digits): `+CMT: "+123456789012345678901234"`. -/
def cmtLongLine : List Nat :=
  [43, 67, 77, 84, 58, 32, 34,
   43, 49, 50, 51, 52, 53, 54, 55, 56, 57, 48,
   49, 50, 51, 52, 53, 54, 55, 56, 57, 48,
   49, 50, 51, 52, 34, 0]

/-- C2 (code evaluation at the failing input): on a notification line whose
quoted sender number has 25 characters, `readsmsphonenumber` writes at
indices 20 through 25 of the 20-byte `phonenumber` buffer (valid indices
are 0..19) instead of truncating or rejecting the number; the parsed bytes
are stored, not dropped, past the end of the buffer. -/
theorem readsmsphonenumber_overflow :
    ((25, 34) ∈ readsmsphonenumberWrites cmtLongLine) ∧
    (∃ w ∈ readsmsphonenumberWrites cmtLongLine, 20 ≤ w.1) := by decide

/-- `gpsFixedResp(r)`: the fix-status check of `readgpsinfo`
(src/main7.c:552-557) — is the token "+CGNSINF: 1,1," in the reply? -/
def gpsFixedResp (r : List Nat) : Bool :=
  decide (is_in_rx_buffer r GPSISFIXEDtok BUFFER_SIZE = 1)

/-- The polling loop of `readgpsinfo()` (src/main7.c:541-583) over a list
of reply lines (one per `AT+CGNSINF` status query).  `cont` is the global
`continousgps`, `att` the local `gpsattempts`.  Returns
`some (result, number of fix-status checks performed)`, or `none` when the
device stops answering (the C code would block in `readline`).  A fixed
reply returns success at once; in guard mode (`cont = 255`) a single
non-fixed reply returns failure at once; otherwise the loop retries while
`gpsattempts < 20`. -/
def readgpsinfoLoop (cont : Nat) : Nat → List (List Nat) → Option (Nat × Nat)
  | _, [] => none
  | att, r :: rest =>
    if gpsFixedResp r then some (1, 1)
    else if cont = 255 then some (0, 1)
    else if att + 1 < 20 then
      (readgpsinfoLoop cont (att + 1) rest).map (fun p => (p.1, p.2 + 1))
    else some (0, 1)

/-- `readgpsinfo()` (src/main7.c:514-593): the polling loop entered with
`gpsattempts = 0`. -/
def readgpsinfo (cont : Nat) (resps : List (List Nat)) : Option (Nat × Nat) :=
  readgpsinfoLoop cont 0 resps

theorem readgpsinfoLoop_all_unfixed (cont : Nat) (hc : cont ≠ 255) :
    ∀ (resps : List (List Nat)) (att : Nat), att < 20 →
      (∀ r ∈ resps, gpsFixedResp r = false) → 20 - att ≤ resps.length →
      readgpsinfoLoop cont att resps = some (0, 20 - att) := by
  intro resps
  induction resps with
  | nil => intro att h1 _ h3; simp at h3; omega
  | cons r rest ih =>
    intro att h1 h2 h3
    have hr : gpsFixedResp r = false := h2 r (List.mem_cons_self r rest)
    rw [readgpsinfoLoop, hr]
    simp only [Bool.false_eq_true, if_false, if_neg hc]
    by_cases hatt : att + 1 < 20
    · rw [if_pos hatt]
      have := ih (att + 1) hatt (fun x hx => h2 x (List.mem_cons_of_mem r hx)) (by simp at h3 ⊢; omega)
      rw [this]
      simp
      omega
    · rw [if_neg hatt]
      have : att = 19 := by omega
      subst this
      rfl

/-- C4: in Guard mode (`continousgps = 255`), `readgpsinfo` returns failure
(0) immediately after the first fix-status check that reports no fix,
performing exactly one check; in every non-guard mode it keeps checking,
performing exactly 20 fix-status checks before returning failure when no
check ever reports a fix. -/
theorem readgpsinfo_guard_vs_retry :
    (∀ (r : List Nat) (rest : List (List Nat)), gpsFixedResp r = false →
       readgpsinfo 255 (r :: rest) = some (0, 1)) ∧
    (∀ (cont : Nat) (resps : List (List Nat)), cont ≠ 255 →
       (∀ r ∈ resps, gpsFixedResp r = false) → 20 ≤ resps.length →
       readgpsinfo cont resps = some (0, 20)) := by
  constructor
  · intro r rest hr
    rw [readgpsinfo, readgpsinfoLoop, hr]
    simp
  · intro cont resps hc hall hlen
    have := readgpsinfoLoop_all_unfixed cont hc resps 0 (by omega) hall (by omega)
    simpa using this

/-- A non-fixed GPS status reply: `+CGNSINF: 0,0` with trailing NUL. -/
def unfixedLine : List Nat := [43, 67, 71, 78, 83, 73, 78, 70, 58, 32, 48, 44, 48, 0]

/-- Witness for `readgpsinfo_guard_vs_retry`: with unfixed replies, Guard
mode fails after 1 check and SingleShot mode (`continousgps = 1`) fails
after 20 checks. -/
theorem readgpsinfo_guard_vs_retry_witness :
    (gpsFixedResp unfixedLine = false ∧
       readgpsinfo 255 [unfixedLine] = some (0, 1)) ∧
    (readgpsinfo 1 (List.replicate 20 unfixedLine) = some (0, 20)) :=
  ⟨⟨by decide, readgpsinfo_guard_vs_retry.1 unfixedLine [] (by decide)⟩,
   readgpsinfo_guard_vs_retry.2 1 (List.replicate 20 unfixedLine) (by decide)
     (by decide) (by decide)⟩

/-- Abstract actions `checkregistration()` performs on the modem, in
program order: a registration query (`AT+CREG?`), radio on/off
(`AT+CFUN=1` / `AT+CFUN=4`), GPS power off (`AT+CGNSPWR=0`), modem sleep
on/off (`AT+CSCLK=1` / `AT+CSCLK=0`), the DTR wake toggle and the dummy
`AT` sent while waking. -/
inductive ModemEvent : Type where
  | query : ModemEvent
  | radioOn : ModemEvent
  | radioOff : ModemEvent
  | gpsOff : ModemEvent
  | sleepOn : ModemEvent
  | wake : ModemEvent
  | dummyAT : ModemEvent
  | sleepOff : ModemEvent
deriving DecidableEq, Repr

/-- The registration test of `checkregistration` (src/main7.c:742-745,
760-763): the reply contains "+CREG: 0,1" (home) or "+CREG: 0,5"
(roaming). -/
def isRegistered (r : List Nat) : Bool :=
  decide (is_in_rx_buffer r ISREG1tok BUFFER_SIZE = 1) ||
  decide (is_in_rx_buffer r ISREG2tok BUFFER_SIZE = 1)

/-- The power-saving backoff of one failed registration cycle
(src/main7.c:768-797): radio off, GPS off, sleep on, 30-minute wait, DTR
wake, dummy `AT`, sleep off, radio on. -/
def backoffEvents : List ModemEvent :=
  [ModemEvent.radioOff, ModemEvent.gpsOff, ModemEvent.sleepOn,
   ModemEvent.wake, ModemEvent.dummyAT, ModemEvent.sleepOff, ModemEvent.radioOn]

/-- The retry loop of `checkregistration()` (src/main7.c:752-805) over the
reply to each re-query.  `att` is `attempt2`.  Each cycle waits 2 minutes
and re-queries; an unregistered reply triggers the backoff; the loop runs
while not registered and `attempt2 < 24`.  Returns
`some (result, events)`, or `none` when the device stops answering. -/
def chkregLoop : Nat → List (List Nat) → Option (Nat × List ModemEvent)
  | _, [] => none
  | att, r :: rest =>
    if isRegistered r then some (1, [ModemEvent.query])
    else if att + 1 < 24 then
      (chkregLoop (att + 1) rest).map
        (fun p => (p.1, ModemEvent.query :: (backoffEvents ++ p.2)))
    else some (0, ModemEvent.query :: backoffEvents)

/-- `checkregistration()` (src/main7.c:728-808): query once; if the reply
already shows registration, return 1 immediately (no radio enable, no
backoff); otherwise enable the radio and run the retry loop. -/
def checkregistration (resps : List (List Nat)) : Option (Nat × List ModemEvent) :=
  match resps with
  | [] => none
  | r :: rest =>
    if isRegistered r then some (1, [ModemEvent.query])
    else (chkregLoop 0 rest).map
        (fun p => (p.1, ModemEvent.query :: (ModemEvent.radioOn :: p.2)))

/-- Number of registration queries in an event trace. -/
def countQ (ev : List ModemEvent) : Nat :=
  ev.countP (fun e => decide (e = ModemEvent.query))

/-- Result and number of queries of a `checkregistration` run. -/
def chkregSummary (resps : List (List Nat)) : Option (Nat × Nat) :=
  (checkregistration resps).map (fun p => (p.1, countQ p.2))

theorem countQ_backoff_cons (p : List ModemEvent) :
    countQ (ModemEvent.query :: (backoffEvents ++ p)) = countQ p + 1 := by
  simp [countQ, backoffEvents, List.countP_cons, List.countP_append]

theorem chkregLoop_all_unregistered :
    ∀ (resps : List (List Nat)) (att : Nat), att < 24 →
      (∀ r ∈ resps, isRegistered r = false) → 24 - att ≤ resps.length →
      ∃ ev, chkregLoop att resps = some (0, ev) ∧ countQ ev = 24 - att := by
  intro resps
  induction resps with
  | nil => intro att h1 _ h3; simp at h3; omega
  | cons r rest ih =>
    intro att h1 h2 h3
    have hr : isRegistered r = false := h2 r (List.mem_cons_self r rest)
    rw [chkregLoop, hr]
    simp only [Bool.false_eq_true, if_false]
    by_cases hatt : att + 1 < 24
    · rw [if_pos hatt]
      obtain ⟨ev, hev, hcount⟩ :=
        ih (att + 1) hatt (fun x hx => h2 x (List.mem_cons_of_mem r hx))
          (by simp at h3 ⊢; omega)
      refine ⟨ModemEvent.query :: (backoffEvents ++ ev), ?_, ?_⟩
      · rw [hev]; rfl
      · rw [countQ_backoff_cons, hcount]; omega
    · rw [if_neg hatt]
      have : att = 23 := by omega
      subst this
      refine ⟨ModemEvent.query :: backoffEvents, rfl, by decide⟩

theorem chkregLoop_query_bound :
    ∀ (resps : List (List Nat)) (att : Nat) (p : Nat × List ModemEvent), att ≤ 23 →
      chkregLoop att resps = some p → countQ p.2 ≤ 24 - att := by
  intro resps
  induction resps with
  | nil => intro att p _ h; simp [chkregLoop] at h
  | cons r rest ih =>
    intro att p hatt h
    rw [chkregLoop] at h
    by_cases hr : isRegistered r
    · rw [if_pos hr] at h
      have : p = (1, [ModemEvent.query]) := by
        simpa using h.symm
      subst this
      simp [countQ]
      omega
    · rw [if_neg hr] at h
      by_cases h24 : att + 1 < 24
      · rw [if_pos h24] at h
        match hrec : chkregLoop (att + 1) rest with
        | none => rw [hrec] at h; simp at h
        | some q =>
          rw [hrec] at h
          simp only [Option.map_some'] at h
          have := ih (att + 1) q (by omega) hrec
          have hp : p = (q.1, ModemEvent.query :: (backoffEvents ++ q.2)) := by
            injection h with h2
            exact h2.symm
          subst hp
          simp [countQ_backoff_cons]
          omega
      · rw [if_neg h24] at h
        have : p = (0, ModemEvent.query :: backoffEvents) := by simpa using h.symm
        subst this
        have : countQ (ModemEvent.query :: backoffEvents) = 1 := by decide
        simp only [this]
        omega

/-- C7: `checkregistration` succeeds immediately on an already-registered
first reply — emitting just the one query, with no radio enable, no sleep
and no GPS action; when the first 3 replies report not registered and the
4th reports registered, it returns success after 4 queries; when every
reply reports not registered it returns 0 after the initial query plus 24
retry cycles (25 queries); and every completed run uses at most 25
queries. -/
theorem checkregistration_policy :
    (∀ (r : List Nat) (rest : List (List Nat)), isRegistered r = true →
       checkregistration (r :: rest) = some (1, [ModemEvent.query])) ∧
    (∀ (r1 r2 r3 r4 : List Nat) (rest : List (List Nat)),
       isRegistered r1 = false → isRegistered r2 = false →
       isRegistered r3 = false → isRegistered r4 = true →
       chkregSummary (r1 :: r2 :: r3 :: r4 :: rest) = some (1, 4)) ∧
    (∀ resps : List (List Nat), (∀ r ∈ resps, isRegistered r = false) →
       25 ≤ resps.length → chkregSummary resps = some (0, 25)) ∧
    (∀ (resps : List (List Nat)) (p : Nat × List ModemEvent),
       checkregistration resps = some p → countQ p.2 ≤ 25) := by
  refine ⟨?_, ?_, ?_, ?_⟩
  · intro r rest hr
    rw [checkregistration, if_pos hr]
  · intro r1 r2 r3 r4 rest h1 h2 h3 h4
    rw [chkregSummary, checkregistration, if_neg (by simp [h1]), chkregLoop, h2]
    simp only [Bool.false_eq_true, if_false, if_pos (by omega : 0 + 1 < 24)]
    rw [chkregLoop, h3]
    simp only [Bool.false_eq_true, if_false, if_pos (by omega : 1 + 1 < 24)]
    rw [chkregLoop, if_pos h4]
    simp only [Option.map_some']
    decide
  · intro resps hall hlen
    match resps with
    | [] => simp at hlen
    | r :: rest =>
      have hr : isRegistered r = false := hall r (List.mem_cons_self r rest)
      rw [chkregSummary, checkregistration, if_neg (by simp [hr])]
      obtain ⟨ev, hev, hcount⟩ :=
        chkregLoop_all_unregistered rest 0 (by omega)
          (fun x hx => hall x (List.mem_cons_of_mem r hx)) (by simp at hlen ⊢; omega)
      rw [hev]
      simp only [Option.map_some', Option.some.injEq, Prod.mk.injEq, true_and]
      simp [countQ, List.countP_cons] at hcount ⊢
      omega
  · intro resps p h
    match resps with
    | [] => simp [checkregistration] at h
    | r :: rest =>
      rw [checkregistration] at h
      by_cases hr : isRegistered r
      · rw [if_pos hr] at h
        have : p = (1, [ModemEvent.query]) := by simpa using h.symm
        subst this
        simp [countQ]
      · rw [if_neg hr] at h
        match hrec : chkregLoop 0 rest with
        | none => rw [hrec] at h; simp at h
        | some q =>
          rw [hrec] at h
          simp only [Option.map_some'] at h
          have := chkregLoop_query_bound rest 0 q (by omega) hrec
          have hp : p = (q.1, ModemEvent.query :: ModemEvent.radioOn :: q.2) := by
            injection h with h2
            exact h2.symm
          subst hp
          simp [countQ, List.countP_cons] at this ⊢
          omega

/-- An unregistered reply: "+CREG: 0,2" (searching). -/
def unregLine : List Nat := [43, 67, 82, 69, 71, 58, 32, 48, 44, 50, 0]

/-- A registered (home network) reply: "+CREG: 0,1". -/
def regLine : List Nat := [43, 67, 82, 69, 71, 58, 32, 48, 44, 49, 0]

/-- Witness for `checkregistration_policy`: a registered first reply
returns success with one query and nothing else; three unregistered
replies followed by a registered one return success after 4 queries; 25
unregistered replies return 0 after 25 queries. -/
theorem checkregistration_policy_witness :
    (checkregistration [regLine] = some (1, [ModemEvent.query])) ∧
    (chkregSummary [unregLine, unregLine, unregLine, regLine] = some (1, 4)) ∧
    (chkregSummary (List.replicate 25 unregLine) = some (0, 25)) :=
  ⟨checkregistration_policy.1 regLine [] (by decide),
   checkregistration_policy.2.1 unregLine unregLine unregLine regLine [] (by decide)
     (by decide) (by decide) (by decide),
   checkregistration_policy.2.2.1 (List.replicate 25 unregLine) (by decide) (by decide)⟩

/-- Upper-casing of one ASCII byte, as done by `strupr`. -/
def toUpperByte (c : Nat) : Nat := if 97 ≤ c ∧ c ≤ 122 then c - 32 else c

/-- `strupr(smstext)`: upper-cases the C string in place, stopping at the
first NUL byte (bytes after the terminator are left as they are). -/
def strupr : List Nat → List Nat
  | [] => []
  | c :: r => if c = 0 then c :: r else toUpperByte c :: strupr r

/-- The acknowledgment SMS each command branch of the dispatcher composes:
`COMMANDMULTIACK`, `COMMANDSINGLEACK`, `ACTIVATED ... `, `GUARD`
(src/main7.c:93-97). -/
inductive Ack : Type where
  | multi : Ack
  | single : Ack
  | activate : Ack
  | guard : Ack
deriving DecidableEq, Repr

/-- The SMS command dispatcher of `main` (src/main7.c:1104-1297), given the
`smstext` buffer content: the flags are reset (`initialized = 0`,
`continousgps = 0`, src/main7.c:1117-1119), then the four keyword branches
run in sequence, each testing its token against the upper-cased body with
`is_in_rx_buffer` independently of the others.  MULTI sets
`initialized = 1, continousgps = 5`; SINGLE sets `1, 1`; ACTIVATE persists
the sender and sets `0, 0`; GUARD sets `1, 255`.  Result:
`(initialized, continousgps, acknowledgments sent in order)`. -/
def dispatchSms (body : List Nat) : Nat × Nat × List Ack :=
  let up := strupr body
  let s0 : Nat × Nat × List Ack := (0, 0, [])
  let s1 := if is_in_rx_buffer up ISMULTItok BUFFER_SIZE = 1
            then (1, 5, s0.2.2 ++ [Ack.multi]) else s0
  let s2 := if is_in_rx_buffer up ISSINGLEtok BUFFER_SIZE = 1
            then (1, 1, s1.2.2 ++ [Ack.single]) else s1
  let s3 := if is_in_rx_buffer up ISACTIVATEtok BUFFER_SIZE = 1
            then (0, 0, s2.2.2 ++ [Ack.activate]) else s2
  let s4 := if is_in_rx_buffer up ISGUARDtok BUFFER_SIZE = 1
            then (1, 255, s3.2.2 ++ [Ack.guard]) else s3
  s4

/-- The body "SSINGLE GUARD" (with NUL terminator): it contains both the
SINGLE and the GUARD keyword as contiguous substrings. -/
def ssingleGuardBody : List Nat :=
  [83, 83, 73, 78, 71, 76, 69, 32, 71, 85, 65, 82, 68, 0]

/-- C8 (counterexample): the claim "for every body containing two keywords
both matching branches execute" is false on the code.  The body
"SSINGLE GUARD" contains both SINGLE and GUARD as contiguous substrings,
yet the dispatcher executes neither branch (the carried-over match counter
of `is_in_rx_buffer` misses both occurrences): no acknowledgment is sent
and the mode stays 0. -/
theorem dispatchSms_two_keywords_missed :
    occursInB ISSINGLEtok ssingleGuardBody = true ∧
    occursInB ISGUARDtok ssingleGuardBody = true ∧
    dispatchSms ssingleGuardBody = (0, 0, []) := by decide

/-- C8 (amended): keyword branches are tested independently, not
exclusively — but "containing a keyword" must be read as "the code's
matcher finds the keyword" (which can fail for some bodies that do contain
it, see `dispatchSms_two_keywords_missed`).  Whenever the matcher finds
both SINGLE and GUARD in the upper-cased body, both branches execute: the
SINGLE acknowledgment and the GUARD acknowledgment are both sent, in that
order in the acknowledgment list, and the later GUARD branch's mode
assignment overrides SINGLE's (`continousgps` ends at 255, with the
proceed flag set). -/
theorem dispatchSms_independent (body : List Nat)
    (hs : is_in_rx_buffer (strupr body) ISSINGLEtok BUFFER_SIZE = 1)
    (hg : is_in_rx_buffer (strupr body) ISGUARDtok BUFFER_SIZE = 1) :
    Ack.single ∈ (dispatchSms body).2.2 ∧ Ack.guard ∈ (dispatchSms body).2.2 ∧
    (dispatchSms body).2.1 = 255 ∧ (dispatchSms body).1 = 1 := by
  rw [dispatchSms]
  simp only [hs, hg, if_pos rfl]
  by_cases hm : is_in_rx_buffer (strupr body) ISMULTItok BUFFER_SIZE = 1 <;>
    by_cases ha : is_in_rx_buffer (strupr body) ISACTIVATEtok BUFFER_SIZE = 1 <;>
      simp [hm, ha]

/-- The body "GUARD SINGLE" (with NUL terminator).  On this body the
matcher finds both keywords (on "SINGLE GUARD" it would find neither: the
G inside SINGLE corrupts the carried match counter before GUARD starts). -/
def guardSingleBody : List Nat :=
  [71, 85, 65, 82, 68, 32, 83, 73, 78, 71, 76, 69, 0]

/-- Witness for `dispatchSms_independent`: on the body "GUARD SINGLE" the
matcher finds both keywords, both acknowledgments are sent and the final
mode is Guard (255). -/
theorem dispatchSms_independent_witness :
    is_in_rx_buffer (strupr guardSingleBody) ISSINGLEtok BUFFER_SIZE = 1 ∧
    (Ack.single ∈ (dispatchSms guardSingleBody).2.2 ∧
     Ack.guard ∈ (dispatchSms guardSingleBody).2.2 ∧
     (dispatchSms guardSingleBody).2.1 = 255 ∧ (dispatchSms guardSingleBody).1 = 1) :=
  ⟨by decide, dispatchSms_independent guardSingleBody (by decide) (by decide)⟩

/-- Integer-part digit accumulation of the C library `atof`: consume
decimal digits, return the accumulated value and the unconsumed rest. -/
def parseDigits : List Nat → ℚ → ℚ × List Nat
  | [], acc => (acc, [])
  | c :: r, acc =>
    if 48 ≤ c ∧ c ≤ 57 then parseDigits r (10 * acc + ((c - 48 : Nat) : ℚ))
    else (acc, c :: r)

/-- Fractional-part accumulation of `atof`: digits after the decimal
point, each weighted by the current scale (1/10, 1/100, ...). -/
def parseFrac : List Nat → ℚ → ℚ → ℚ
  | [], _, acc => acc
  | c :: r, scale, acc =>
    if 48 ≤ c ∧ c ≤ 57 then parseFrac r (scale / 10) (acc + ((c - 48 : Nat) : ℚ) * scale)
    else acc

/-- Magnitude part of `atof`: digits, optional '.', digits; parsing stops
at the first byte that fits neither (in particular at the NUL
terminator). -/
def atofMag (s : List Nat) : ℚ :=
  let p := parseDigits s 0
  match p.2 with
  | 46 :: r => p.1 + parseFrac r (1 / 10) 0
  | _ => p.1

/-- Modelled from the C library: `atof` on a buffer holding an optional
sign followed by a fixed-point decimal numeral, exactly the shape of the
coordinate strings this program stores ("[-]DD.DDDDDD").  The result is an
exact rational (the C double rounding is immaterial at the distances the
claims use). -/
def atof (s : List Nat) : ℚ :=
  match s with
  | [] => 0
  | c :: r => if c = 45 then -(atofMag r) else if c = 43 then atofMag r else atofMag (c :: r)

/-- The guard-mode geofence comparison of one poll iteration of `main`
(src/main7.c:1424-1483): first `latdiff`/`longdiff` are set to the parsed
previous coordinates; the comparison runs only when GPS data is available,
`continousgps` is 255 and both parsed previous coordinates are non-zero.
Then the absolute coordinate differences are taken and an alert is sent
when either exceeds 0.0027; an alert also sets `continousgps = 1` and
sends `AT+CGNSPWR=0`.  The result is
`(alert sent, continousgps after, GPS power-off sent)`. -/
def guardStep (latOld lonOld latNew lonNew : List Nat) (gpsAvail : Bool) (cont : Nat) :
    Bool × Nat × Bool :=
  if gpsAvail = true ∧ cont = 255 ∧ atof latOld ≠ 0 ∧ atof lonOld ≠ 0 then
    let latdiff := |atof latOld - atof latNew|
    let longdiff := |atof lonOld - atof lonNew|
    if longdiff > 27 / 10000 ∨ latdiff > 27 / 10000 then (true, 1, true)
    else (false, cont, false)
  else (false, cont, false)

/-- Latitude string "52.000000". -/
def lat52l : List Nat := [53, 50, 46, 48, 48, 48, 48, 48, 48, 0]

/-- Latitude string "52.003000". -/
def lat52003l : List Nat := [53, 50, 46, 48, 48, 51, 48, 48, 48, 0]

/-- Longitude string "21.000000". -/
def lon21l : List Nat := [50, 49, 46, 48, 48, 48, 48, 48, 48, 0]

/-- Latitude string "0.000000": a genuine equator fix, not the all-zero
sentinel `INITLOCl`. -/
def lat0l : List Nat := [48, 46, 48, 48, 48, 48, 48, 48, 0]

example : atof lat52l = 52 := by
  norm_num [atof, atofMag, parseDigits, parseFrac, lat52l]
example : atof lat52003l = 52 + 3 / 1000 := by
  norm_num [atof, atofMag, parseDigits, parseFrac, lat52003l]
example : atof [45, 53, 50, 46, 53, 0] = -(105 / 2) := by
  norm_num [atof, atofMag, parseDigits, parseFrac]
example : atof INITLOCl = 0 := by
  norm_num [atof, atofMag, parseDigits, parseFrac, INITLOCl]

/-- C5 (counterexample): the claim "with a non-sentinel previous fix, an
alert is sent exactly when a coordinate difference exceeds 0.0027" is
false on the code.  The previous fix (0.000000, 21.000000) is not the
all-zero sentinel and the latitude moved by 52 degrees, yet no alert is
sent: the code skips the whole comparison whenever either parsed previous
coordinate equals 0. -/
theorem guardStep_nonsentinel_missed_alert :
    (lat0l, lon21l) ≠ (INITLOCl, INITLOCl) ∧
    |atof lat0l - atof lat52l| > 27 / 10000 ∧
    guardStep lat0l lon21l lat52l lon21l true 255 = (false, 255, false) := by
  refine ⟨by decide, ?_, ?_⟩
  · norm_num [atof, atofMag, parseDigits, parseFrac, lat0l, lat52l, abs]
  · have h0 : atof lat0l = 0 := by
      norm_num [atof, atofMag, parseDigits, parseFrac, lat0l]
    rw [guardStep, if_neg]
    rintro ⟨-, -, h1, -⟩
    exact h1 h0

/-- C5 (amended): in Guard mode with a previous fix both of whose parsed
coordinates are non-zero, an alert SMS is sent exactly when the absolute
difference of the parsed latitudes or of the parsed longitudes exceeds
0.0027 degrees; after an alert, `continousgps` is set to the single-shot
terminal value 1 and GPS power is switched off.  (For a previous fix with
a zero coordinate — including the sentinel — no comparison happens; see
`guardStep_nonsentinel_missed_alert` and C10.) -/
theorem guardStep_alert_iff (latOld lonOld latNew lonNew : List Nat)
    (h1 : atof latOld ≠ 0) (h2 : atof lonOld ≠ 0) :
    guardStep latOld lonOld latNew lonNew true 255 =
      if |atof lonOld - atof lonNew| > 27 / 10000 ∨ |atof latOld - atof latNew| > 27 / 10000
      then (true, 1, true) else (false, 255, false) := by
  rw [guardStep, if_pos ⟨rfl, rfl, h1, h2⟩]

/-- Witness for `guardStep_alert_iff`, at the spec's own example: previous
fix (52.000000, 21.000000), new fix (52.003000, 21.000000): the latitude
moved by 0.003 > 0.0027, so the alert fires, `continousgps` becomes 1 and
GPS power is switched off; with the unchanged new fix (52.000000,
21.000000) no alert is sent. -/
theorem guardStep_alert_iff_witness :
    atof lat52l ≠ 0 ∧ atof lon21l ≠ 0 ∧
    guardStep lat52l lon21l lat52003l lon21l true 255 = (true, 1, true) ∧
    guardStep lat52l lon21l lat52l lon21l true 255 = (false, 255, false) := by
  have h1 : atof lat52l ≠ 0 := by
    norm_num [atof, atofMag, parseDigits, parseFrac, lat52l]
  have h2 : atof lon21l ≠ 0 := by
    norm_num [atof, atofMag, parseDigits, parseFrac, lon21l]
  refine ⟨h1, h2, ?_, ?_⟩
  · have hc : |atof lon21l - atof lon21l| > 27 / 10000 ∨
        |atof lat52l - atof lat52003l| > 27 / 10000 := by
      right
      norm_num [atof, atofMag, parseDigits, parseFrac, lat52l, lat52003l, abs]
    rw [guardStep_alert_iff lat52l lon21l lat52003l lon21l h1 h2, if_pos hc]
  · have hc : ¬ (|atof lon21l - atof lon21l| > 27 / 10000 ∨
        |atof lat52l - atof lat52l| > 27 / 10000) := by
      norm_num [atof, atofMag, parseDigits, parseFrac, lat52l, lon21l, abs]
    rw [guardStep_alert_iff lat52l lon21l lat52l lon21l h1 h2, if_neg hc]

/-- C6: while the stored previous fix is the all-zero sentinel (as seeded
at startup, src/main7.c:903-906), no guard-mode iteration can send an
alert, whatever the new fix, the GPS-availability flag and the mode
counter are: the parsed sentinel coordinates are 0, so the comparison is
skipped and the step reports no alert, an unchanged counter and no GPS
power-off. -/
theorem guardStep_sentinel_no_alert (latNew lonNew : List Nat) (g : Bool) (cont : Nat) :
    guardStep INITLOCl INITLOCl latNew lonNew g cont = (false, cont, false) := by
  have h : atof INITLOCl = 0 := by
    norm_num [atof, atofMag, parseDigits, parseFrac, INITLOCl]
  rw [guardStep, if_neg]
  rintro ⟨-, -, h1, -⟩
  exact h1 h

/-- C10: in a guard-mode iteration, if either stored previous coordinate
parses to 0 — one suffices, the all-zero sentinel is not required — the
movement comparison is skipped entirely and no alert can be sent in that
iteration. -/
theorem guardStep_zero_coordinate_suppresses
    (latOld lonOld latNew lonNew : List Nat) (g : Bool) (cont : Nat)
    (h : atof latOld = 0 ∨ atof lonOld = 0) :
    guardStep latOld lonOld latNew lonNew g cont = (false, cont, false) := by
  rw [guardStep, if_neg]
  rintro ⟨-, -, h1, h2⟩
  rcases h with h | h
  · exact h1 h
  · exact h2 h

/-- Witness for `guardStep_zero_coordinate_suppresses`: a genuine equator
fix (0.000000, 21.000000) — non-sentinel, longitude non-zero — suppresses
the alert even though the new fix is 52 degrees away. -/
theorem guardStep_zero_coordinate_suppresses_witness :
    (atof lat0l = 0 ∨ atof lon21l = 0) ∧
    guardStep lat0l lon21l lat52003l lon21l true 255 = (false, 255, false) := by
  have h0 : atof lat0l = 0 := by
    norm_num [atof, atofMag, parseDigits, parseFrac, lat0l]
  exact ⟨Or.inl h0,
    guardStep_zero_coordinate_suppresses lat0l lon21l lat52003l lon21l true 255
      (Or.inl h0)⟩

/-- `readline()` unconditionally returns 1 (src/main7.c:301): its return
value never distinguishes success from timeout. -/
def readlineReturn : Nat := 1

/-- One attempt of the `checkat()` probe loop (src/main7.c:670-684): send
`AT`, read a line, then — because `readline() > 0` is checked first — test
the reply for "OK"; the "AT"-echo test sits in the `else` branch and is
reachable only if `readline()` returned 0. -/
def checkatStep (r : List Nat) : Bool :=
  if readlineReturn > 0 then decide (is_in_rx_buffer r ISOKtok BUFFER_SIZE = 1)
  else decide (is_in_rx_buffer r ISATECHOtok BUFFER_SIZE = 1)

/-- `checkat()` (src/main7.c:661-692) over the list of reply lines, one
per probe attempt: loops until an attempt is accepted, returning 1; `none`
means the provided attempts were exhausted without the loop ever
terminating. -/
def checkat : List (List Nat) → Option Nat
  | [] => none
  | r :: rest => if checkatStep r then some 1 else checkat rest

/-- The reply of a device with echo on and no "OK": the echoed probe text
"AT". -/
def atEchoLine : List Nat := [65, 84, 0]

/-- C9 (code evaluation at the failing input): a device that only echoes
the probe never lets `checkat` terminate, however many attempts are made —
contradicting the claim that an echoed "AT" reply suffices for the loop to
exit with 1.  The echo test is dead code: it lies in the `else` branch of
`if (readline() > 0)`, and `readline` always returns 1, so only the "OK"
test is ever executed, and "OK" never occurs in the echo line. -/
theorem checkat_echo_only_never_exits (n : Nat) :
    checkat (List.replicate n atEchoLine) = none := by
  induction n with
  | zero => rfl
  | succ k ih =>
    have hstep : checkatStep atEchoLine = false := by decide
    rw [List.replicate_succ, checkat, hstep]
    simpa using ih
